import Mathlib

/-!
Verification of the `community.aws` EMR modules
(`plugins/modules/aws_emr_cluster.py` and
`plugins/modules/aws_emr_cluster_info.py`) against their
natural-language specification.

The Python modules are shallowly embedded: each module run is a value in
a trace monad `TraceM ε ev` that records the sequence of remote calls
(and module warnings) issued so far and stops either by `exit_json`
(successful module exit, carrying the reported payload) or by
`fail_json_aws` / an uncaught Python exception (failed module exit).
The AWS SDK client is an oracle: a record of response functions, one per
remote operation, each returning `Except` to model transport/service
errors.  The Python `re` regex engine is likewise external; a compiled
pattern is modelled by its match-at-start predicate on strings
(`re.compile(pat).match(s)` tests whether `pat` matches a prefix of `s`;
for a metacharacter-free pattern this is exactly the prefix test).
-/

/-- A module run: state is the list of events recorded so far; the run
either produces a value or stops with `ε` (exit, failure, or an uncaught
exception).  The event trace accumulated before the stop is kept. -/
def TraceM (ε ev α : Type) : Type := List ev → Except ε α × List ev

namespace TraceM

def pureM (a : α) : TraceM ε ev α := fun tr => (Except.ok a, tr)

def bindM (x : TraceM ε ev α) (f : α → TraceM ε ev β) : TraceM ε ev β := fun tr =>
  match x tr with
  | (Except.ok a, tr1) => f a tr1
  | (Except.error e, tr1) => (Except.error e, tr1)

instance : Monad (TraceM ε ev) where
  pure := pureM
  bind := bindM

/-- Record one event (a remote call or a warning). -/
def record (e : ev) : TraceM ε ev Unit := fun tr => (Except.ok (), tr ++ [e])

/-- Stop the run (exit_json / fail_json_aws / uncaught exception). -/
def stop (e : ε) : TraceM ε ev α := fun tr => (Except.error e, tr)

/-- Run from the empty trace. -/
def run (x : TraceM ε ev α) : Except ε α × List ev := x []

end TraceM

namespace EmrCluster

/-- EMR cluster lifecycle states (glossary of the spec). -/
inductive ClusterState
  | STARTING
  | BOOTSTRAPPING
  | RUNNING
  | WAITING
  | TERMINATING
  | TERMINATED
  | TERMINATED_WITH_ERRORS
deriving DecidableEq, Repr

/-- The `Status` sub-dict of a cluster detail; the module reads only
`Status.State` (aws_emr_cluster.py line 120). -/
structure ClusterStatus where
  State : ClusterState
deriving DecidableEq, Repr

/-- A summary entry of the `list_clusters` listing; the module reads
`Name` (line 41) and `Id` (line 50). -/
structure ClusterSummary where
  Id : String
  Name : String
deriving DecidableEq, Repr

/-- The `Cluster` dict returned by `describe_cluster`.  `Status` is
optional: the `'Status' in response` membership test at line 119 is over
the dict's keys, so the model keeps the key's presence explicit. -/
structure ClusterDetail where
  Id : String
  Name : String
  Status : Option ClusterStatus
deriving DecidableEq, Repr

/-- Result of `_gather_cluster_info`: either the (empty) filtered listing
or the detail dict of the first match (lines 43-54). -/
inductive GatherResult
  | list (l : List ClusterSummary)
  | detail (d : ClusterDetail)
deriving DecidableEq, Repr

/-- Python truthiness of the result (`if response:` at line 100): a list
is truthy iff non-empty; the detail dict always carries keys, hence truthy. -/
def GatherResult.truthy : GatherResult → Bool
  | GatherResult.list l => !l.isEmpty
  | GatherResult.detail _ => true

/-- The membership test `'Status' in response` (line 119).  On a dict it
tests key presence; on a list it tests element equality, and the string
never equals a summary dict, so it is `false` — in particular it is total
on the empty no-match listing. -/
def GatherResult.hasStatusKey : GatherResult → Bool
  | GatherResult.list _ => false
  | GatherResult.detail d => d.Status.isSome

/-- The `filters` dict passed to the paginator: `\x7b\x7d` or
`\x7b'ClusterStates': [...]\x7d` (lines 30, 93-96). -/
structure EmrFilters where
  ClusterStates : Option (List ClusterState)
deriving DecidableEq, Repr

/-- A compiled regex, modelled by its match-at-start predicate:
`re.compile(pat).match(s)` is anchored at the start of `s`. -/
structure CompiledRegex where
  matchAtStart : String → Bool

/-- Compiling a metacharacter-free pattern: match-at-start is the prefix test. -/
def reCompileLiteral (pat : String) : CompiledRegex :=
  ⟨fun s => pat.data.isPrefixOf s.data⟩

/-- The `state` module parameter (choices at lines 198-199). -/
inductive EmrState
  | present
  | absent
deriving DecidableEq, Repr

/-- The operator-supplied `instances` sub-dict, opaque to the module
logic: it is only read and echoed (line 89, 91). -/
abbrev Instances := List (String × String)

/-- Module parameters read by the reconciliation logic. -/
structure EmrParams where
  name : CompiledRegex
  instances : Instances
  state : EmrState
  wait : Bool
  wait_delay : Nat
  wait_max_attempts : Nat

/-- Error payload carried by `ClientError` / `BotoCoreError` / `WaiterError`. -/
abbrev AwsError := String

/-- The EMR client as an oracle: one response function per remote
operation used by the module. -/
structure Client where
  list_clusters : EmrFilters → Except AwsError (List ClusterSummary)
  describe_cluster : String → Except AwsError ClusterDetail
  terminate_job_flows : List String → Except AwsError Unit
  wait_cluster_terminated : String → Nat → Nat → Except AwsError Unit

/-- Observable events of a run: remote calls and module warnings. -/
inductive Event
  | listClusters (filters : EmrFilters)
  | describeCluster (id : String)
  | terminateJobFlows (ids : List String)
  | waiterWait (id : String) (delay : Nat) (maxAttempts : Nat)
  | warn (msg : String)
deriving DecidableEq, Repr

/-- Payload of a successful `module.exit_json`. -/
inductive ExitPayload
  | instancesEcho (changed : Bool) (instances : Instances)
  | clusterResult (changed : Bool) (cluster : GatherResult)
deriving DecidableEq, Repr

/-- How a module run stops: successful exit, `fail_json_aws`, or an
uncaught Python exception. -/
inductive ModStop
  | exited (p : ExitPayload)
  | failedAws (e : AwsError)
  | typeError (msg : String)
deriving DecidableEq, Repr

abbrev EmrM (α : Type) : Type := TraceM ModStop Event α

def exit_json (p : ExitPayload) : EmrM α := TraceM.stop (ModStop.exited p)

def fail_json_aws (e : AwsError) : EmrM α := TraceM.stop (ModStop.failedAws e)

def module_warn (msg : String) : EmrM Unit := TraceM.record (Event.warn msg)

/-- The `try: ... except (ClientError, BotoCoreError): module.fail_json_aws(e)`
pattern wrapped around every client call. -/
def orFail (r : Except AwsError α) : EmrM α :=
  match r with
  | Except.ok a => pure a
  | Except.error e => fail_json_aws e

/-- Client-side name filtering (lines 40-41): keep the summaries whose
`Name` the compiled pattern matches at the start. -/
def nameMatches (m : EmrParams) (l : List ClusterSummary) : List ClusterSummary :=
  l.filter (fun emr => m.name.matchAtStart emr.Name)

/-- The warning emitted at lines 45-46 (a plain string in the source: the
braces are literal, it is not an f-string). -/
def tooManyMatchesWarning : String :=
  "More than one Cluster match with name \x7bcluster_name\x7d just the first one will be used"

/-- Function `_gather_cluster_info` (lines 30-54): list, regex-filter on `Name`,
then — when matches exist — warn on multiplicity and fetch the detail of
the first match. -/
def gather_cluster_info (client : Client) (m : EmrParams) (filters : EmrFilters) :
    EmrM GatherResult := do
  TraceM.record (Event.listClusters filters)
  let response ← orFail (client.list_clusters filters)
  let response := nameMatches m response
  match response with
  | first :: rest => do
      if (first :: rest).length > 1 then
        module_warn tooManyMatchesWarning
      TraceM.record (Event.describeCluster first.Id)
      let d ← orFail (client.describe_cluster first.Id)
      pure (GatherResult.detail d)
  | [] => pure (GatherResult.list [])

/-- Post-call state of the `filters` argument object of
`gather_cluster_info`.  The body only reads `filters` (it is unpacked
into the paginate call at line 35-36); no statement assigns into or
mutates it, so the object after the call is the argument itself. -/
def gather_filters_after (client : Client) (m : EmrParams) (filters : EmrFilters) :
    EmrFilters :=
  filters

/-- The module-level default value of the `filters` parameter
(`filters=\x7b\x7d` at line 30): in Python a single dict object shared by
every call that omits the argument. -/
def gatherDefaultFilters : EmrFilters := { ClusterStates := none }

/-- The state of the shared default-filters object after `n` successive
default-argument calls of `gather_cluster_info`, under Python's
mutable-default semantics. -/
def defaultFiltersAfterRuns (client : Client) (m : EmrParams) : Nat → EmrFilters
  | 0 => gatherDefaultFilters
  | n + 1 => gather_filters_after client m (defaultFiltersAfterRuns client m n)

/-- Function `_create_cluster` (lines 57-58): an explicit stub returning `[]`. -/
def create_cluster (client : Client) (m : EmrParams) : EmrM GatherResult :=
  pure (GatherResult.list [])

/-- Function `_terminate_cluster` (lines 61-85): terminate, optionally wait for
`cluster_terminated` with the configured delay / attempt budget (waiter
failure is fatal), then re-fetch the detail once. -/
def terminate_cluster (client : Client) (m : EmrParams) (cluster_id : String) :
    EmrM ClusterDetail := do
  let wait := m.wait
  TraceM.record (Event.terminateJobFlows [cluster_id])
  let _ ← orFail (client.terminate_job_flows [cluster_id])
  if wait then do
    let wait_delay := m.wait_delay
    let wait_max_attempts := m.wait_max_attempts
    TraceM.record (Event.waiterWait cluster_id wait_delay wait_max_attempts)
    let _ ← orFail (client.wait_cluster_terminated cluster_id wait_delay wait_max_attempts)
    pure ()
  TraceM.record (Event.describeCluster cluster_id)
  let response ← orFail (client.describe_cluster cluster_id)
  pure response

/-- The list of active lifecycle states used by both reconcilers
(lines 93-96 and 121-124). -/
def active_states : List ClusterState :=
  [ClusterState.STARTING, ClusterState.BOOTSTRAPPING,
   ClusterState.RUNNING, ClusterState.WAITING]

/-- The membership test `\x7b'Status': \x7b'State': state\x7d\x7d in response`
(lines 101-102, dead code).  When `response` is the detail dict the
candidate key is itself a dict, which is unhashable: `in` raises
`TypeError`.  When `response` is a list the test is element equality,
and the one-key dict equals no summary entry. -/
def status_dict_in (state : ClusterState) (r : GatherResult) : EmrM Bool :=
  match r with
  | GatherResult.list _ => pure false
  | GatherResult.detail _ => TraceM.stop (ModStop.typeError "unhashable type: dict")

/-- Function `ensure_custer_present` (lines 88-113, name as in the
source).  The handler reads `instances` and immediately calls
`module.exit_json(changed=False, **instances)`, which ends the run; the
existence check and creation call below it are unreachable. -/
def ensure_custer_present (client : Client) (m : EmrParams) : EmrM (Bool × GatherResult) := do
  let instances := m.instances
  let _ ← (exit_json (ExitPayload.instancesEcho false instances) : EmrM Unit)
  let filters : EmrFilters := { ClusterStates := some active_states }
  let response ← gather_cluster_info client m filters
  if response.truthy then do
    let check_status ← active_states.mapM (fun state => status_dict_in state response)
    if check_status.any id then do
      let changed := false
      return (changed, response)
    let changed := true
    let response ← create_cluster client m
    pure (changed, response)
  else do
    let changed := true
    let response ← create_cluster client m
    pure (changed, response)

/-- Function `ensure_cluster_absent` (lines 116-135), parameterized by the current
default-filters object that its `_gather_cluster_info(client, module)`
call receives: if the found result carries a `Status` key whose `State`
is active, terminate and report changed; otherwise report unchanged. -/
def ensure_cluster_absent_with (filtersObj : EmrFilters) (client : Client) (m : EmrParams) :
    EmrM (Bool × GatherResult) := do
  let response ← gather_cluster_info client m filtersObj
  match response with
  | GatherResult.detail d =>
      match d.Status with
      | some st =>
          let check_status := active_states.map (fun state => st.State == state)
          if check_status.any id then do
            let response2 ← terminate_cluster client m d.Id
            pure (true, GatherResult.detail response2)
          else
            pure (false, GatherResult.detail d)
      | none => pure (false, GatherResult.detail d)
  | GatherResult.list l => pure (false, GatherResult.list l)

/-- Function `ensure_cluster_absent` with the pristine shared default object,
as in a fresh interpreter. -/
def ensure_cluster_absent (client : Client) (m : EmrParams) : EmrM (Bool × GatherResult) :=
  ensure_cluster_absent_with gatherDefaultFilters client m

/-- Two successive `ensure_cluster_absent` invocations under Python's
mutable-default semantics: the second call receives the default-filters
object as the first call left it. -/
def absentTwiceResults (client : Client) (m : EmrParams) :
    (Except ModStop (Bool × GatherResult) × List Event) ×
    (Except ModStop (Bool × GatherResult) × List Event) :=
  let f0 := gatherDefaultFilters
  let r1 := (ensure_cluster_absent_with f0 client m).run
  let f1 := gather_filters_after client m f0
  let r2 := (ensure_cluster_absent_with f1 client m).run
  (r1, r2)

/-- Function `main` (lines 138-229) after client construction: dispatch on
`state` (lines 220-225), then `exit_json` with the changed flag and the
snake-cased response (lines 227-229; `camel_dict_to_snake_dict` only
renames keys, so the payload is modelled by the response itself). -/
def emrMain (client : Client) (m : EmrParams) : EmrM Unit := do
  let r ← match m.state with
    | EmrState.present => ensure_custer_present client m
    | EmrState.absent => ensure_cluster_absent client m
  exit_json (ExitPayload.clusterResult r.1 r.2)

end EmrCluster

namespace EmrClusterInfo

/-- The `filters` dict of aws_emr_cluster_info.py: the module itself
reads only the presence of the `CreatedAfter` / `CreatedBefore` keys
(lines 299, 303); everything else is opaque and passed to the paginator. -/
structure InfoFilters where
  CreatedAfter : Option String
  CreatedBefore : Option String
  ClusterStates : List String
deriving DecidableEq, Repr

/-- A `list_clusters` summary entry; the module reads `Name` (line 318)
and `Id` (line 321). -/
structure InfoSummary where
  Id : String
  Name : String
deriving DecidableEq, Repr

/-- The `Cluster` dict returned by `describe_cluster`; the module reads
`Status.Timeline.CreationDateTime` as the sort key (lines 328-329).
The timestamp is modelled as an integer (epoch value). -/
structure InfoDetail where
  Id : String
  Name : String
  CreationDateTime : Int
deriving DecidableEq, Repr

/-- The client oracle for the info module. -/
structure InfoClient where
  list_clusters : InfoFilters → Except String (List InfoSummary)
  describe_cluster : String → Except String InfoDetail

/-- Remote calls of the info module. -/
inductive InfoEvent
  | listClusters (filters : InfoFilters)
  | describeCluster (id : String)
deriving DecidableEq, Repr

/-- How an info run stops: successful exit with the sorted cluster
details, `fail_json_aws`, or an uncaught `AttributeError`. -/
inductive InfoStop
  | exited (clusters : List InfoDetail)
  | failedAws (e : String)
  | attributeError (msg : String)
deriving DecidableEq, Repr

abbrev InfoM (α : Type) : Type := TraceM InfoStop InfoEvent α

def info_fail_json_aws (e : String) : InfoM α := TraceM.stop (InfoStop.failedAws e)

def infoOrFail (r : Except String α) : InfoM α :=
  match r with
  | Except.ok a => pure a
  | Except.error e => info_fail_json_aws e

/-- The `sort_order` parameter (lines 283-284; default descending). -/
inductive SortOrder
  | ascending
  | descending
deriving DecidableEq, Repr

/-- Module parameters of aws_emr_cluster_info.py (lines 280-285). -/
structure InfoParams where
  name : Option EmrCluster.CompiledRegex
  filters : InfoFilters
  sort_order : SortOrder

/-- The optional client-side name filtering (lines 316-318). -/
def infoNameFilter (p : InfoParams) (l : List InfoSummary) : List InfoSummary :=
  match p.name with
  | some re => l.filter (fun emr => re.matchAtStart emr.Name)
  | none => l

/-- The per-match detail fetches (lines 320-324): one `describe_cluster`
per summary, in listing order, inside a single try block — the first
failure aborts and every earlier result is discarded. -/
def describeAll (client : InfoClient) : List InfoSummary → InfoM (List InfoDetail)
  | [] => pure []
  | emr :: rest => do
      TraceM.record (InfoEvent.describeCluster emr.Id)
      let d ← infoOrFail (client.describe_cluster emr.Id)
      let ds ← describeAll client rest
      pure (d :: ds)

/-- Stable insertion preserving earlier-inserted order among equal keys. -/
def insertByLe (le : α → α → Bool) (a : α) : List α → List α
  | [] => [a]
  | b :: bs => if le a b then a :: b :: bs else b :: insertByLe le a bs

/-- Stable insertion sort. -/
def sortByLe (le : α → α → Bool) : List α → List α
  | [] => []
  | a :: as => insertByLe le a (sortByLe le as)

/-- Model of Python `list.sort(key=k, reverse=r)`: a stable sort,
ascending by key, descending (still stable) when `reverse` is set. -/
def pySortByKey (key : α → Int) (reverse : Bool) (l : List α) : List α :=
  if reverse then sortByLe (fun a b => decide (key b ≤ key a)) l
  else sortByLe (fun a b => decide (key a ≤ key b)) l

/-- The error message of the uncaught exception at lines 300 / 304: the
`datetime` module has no attribute `strtime`, so evaluating
`datetime.strtime(...)` raises `AttributeError` before any call is made. -/
def strtimeAttributeError : String :=
  "module datetime has no attribute strtime"

/-- Function `main` of aws_emr_cluster_info.py (lines 279-333) after client
construction: date-filter preprocessing (lines 299-305, which raises
`AttributeError` whenever either date key is present, because
`datetime.strtime` does not exist), listing (lines 307-312), optional
name filtering (lines 314-318), per-match detail fetches (lines
320-324), sort by creation timestamp (lines 326-329), and `exit_json`
(lines 331-333; `camel_dict_to_snake_dict` only renames keys, so the
payload is modelled by the detail list itself). -/
def infoMain (client : InfoClient) (p : InfoParams) : InfoM Unit := do
  let filters := p.filters
  if filters.CreatedAfter.isSome then
    (TraceM.stop (InfoStop.attributeError strtimeAttributeError) : InfoM Unit)
  if filters.CreatedBefore.isSome then
    (TraceM.stop (InfoStop.attributeError strtimeAttributeError) : InfoM Unit)
  TraceM.record (InfoEvent.listClusters filters)
  let response ← infoOrFail (client.list_clusters filters)
  let response := infoNameFilter p response
  let emr_clusters ← describeAll client response
  let sort_order := p.sort_order
  let sorted := pySortByKey (fun e => e.CreationDateTime)
    (sort_order == SortOrder.descending) emr_clusters
  TraceM.stop (InfoStop.exited sorted)

end EmrClusterInfo

namespace EmrCluster

/-- Number of termination requests recorded in a trace. -/
def countTerminations (tr : List Event) : Nat :=
  tr.countP (fun e => match e with
    | Event.terminateJobFlows _ => true
    | _ => false)

/-- Sample client: two listed clusters of which exactly one name starts
with "My"; every detail fetch reports a RUNNING cluster. -/
def sampleClient : Client where
  list_clusters := fun _ => Except.ok [⟨"j-2", "Other"⟩, ⟨"j-1", "My Cluster A"⟩]
  describe_cluster := fun i => Except.ok ⟨i, "My Cluster A", some ⟨ClusterState.RUNNING⟩⟩
  terminate_job_flows := fun _ => Except.ok ()
  wait_cluster_terminated := fun _ _ _ => Except.ok ()

/-- Sample client: a single matching cluster in state RUNNING. -/
def clientOneRunning : Client where
  list_clusters := fun _ => Except.ok [⟨"j-1", "My Cluster A"⟩]
  describe_cluster := fun i => Except.ok ⟨i, "My Cluster A", some ⟨ClusterState.RUNNING⟩⟩
  terminate_job_flows := fun _ => Except.ok ()
  wait_cluster_terminated := fun _ _ _ => Except.ok ()

/-- Sample client: a single matching cluster already TERMINATED. -/
def clientOneTerminated : Client where
  list_clusters := fun _ => Except.ok [⟨"j-1", "My Cluster A"⟩]
  describe_cluster := fun i => Except.ok ⟨i, "My Cluster A", some ⟨ClusterState.TERMINATED⟩⟩
  terminate_job_flows := fun _ => Except.ok ()
  wait_cluster_terminated := fun _ _ _ => Except.ok ()

/-- Sample client: a RUNNING match whose termination waiter times out. -/
def clientWaiterTimeout : Client where
  list_clusters := fun _ => Except.ok [⟨"j-1", "My Cluster A"⟩]
  describe_cluster := fun i => Except.ok ⟨i, "My Cluster A", some ⟨ClusterState.RUNNING⟩⟩
  terminate_job_flows := fun _ => Except.ok ()
  wait_cluster_terminated := fun _ _ _ => Except.error "waiter timeout"

/-- Sample client: an empty listing (no match). -/
def clientNoMatch : Client where
  list_clusters := fun _ => Except.ok []
  describe_cluster := fun i => Except.ok ⟨i, "My Cluster A", some ⟨ClusterState.RUNNING⟩⟩
  terminate_job_flows := fun _ => Except.ok ()
  wait_cluster_terminated := fun _ _ _ => Except.ok ()

/-- Sample client: a match whose detail dict lacks the Status key. -/
def clientNoStatusKey : Client where
  list_clusters := fun _ => Except.ok [⟨"j-1", "My Cluster A"⟩]
  describe_cluster := fun i => Except.ok ⟨i, "My Cluster A", none⟩
  terminate_job_flows := fun _ => Except.ok ()
  wait_cluster_terminated := fun _ _ _ => Except.ok ()

/-- Sample parameters for a state=present invocation. -/
def paramsPresent : EmrParams where
  name := reCompileLiteral "My"
  instances := [("ec2_key_name", "mykey")]
  state := EmrState.present
  wait := false
  wait_delay := 30
  wait_max_attempts := 60

/-- Sample parameters for a state=absent invocation, wait disabled. -/
def paramsAbsent : EmrParams where
  name := reCompileLiteral "My"
  instances := []
  state := EmrState.absent
  wait := false
  wait_delay := 30
  wait_max_attempts := 60

/-- Sample parameters for a state=absent invocation, wait enabled. -/
def paramsAbsentWait : EmrParams where
  name := reCompileLiteral "My"
  instances := []
  state := EmrState.absent
  wait := true
  wait_delay := 30
  wait_max_attempts := 60

end EmrCluster

namespace EmrClusterInfo

/-- Sample filter set with no date bounds. -/
def infoFiltersPlain : InfoFilters := ⟨none, none, []⟩

/-- Sample info parameters, default descending order. -/
def infoParamsDesc : InfoParams where
  name := none
  filters := infoFiltersPlain
  sort_order := SortOrder.descending

/-- Sample info parameters, ascending order. -/
def infoParamsAsc : InfoParams where
  name := none
  filters := infoFiltersPlain
  sort_order := SortOrder.ascending

/-- Sample info parameters whose CreatedAfter filter holds a malformed
date string. -/
def infoParamsBadDate : InfoParams where
  name := none
  filters := ⟨some "2021-02-30x", none, []⟩
  sort_order := SortOrder.descending

/-- Sample info client: three clusters with creation timestamps 10 < 20 < 30. -/
def infoClientThree : InfoClient where
  list_clusters := fun _ => Except.ok [⟨"i-1", "a"⟩, ⟨"i-2", "b"⟩, ⟨"i-3", "c"⟩]
  describe_cluster := fun i =>
    if i = "i-1" then Except.ok ⟨"i-1", "a", 10⟩
    else if i = "i-2" then Except.ok ⟨"i-2", "b", 20⟩
    else Except.ok ⟨"i-3", "c", 30⟩

/-- Sample info client: empty listing. -/
def infoClientEmpty : InfoClient where
  list_clusters := fun _ => Except.ok []
  describe_cluster := fun i => Except.ok ⟨i, "x", 0⟩

/-- Sample info client: the detail fetch fails. -/
def infoClientFailDetail : InfoClient where
  list_clusters := fun _ => Except.ok [⟨"i-1", "a"⟩]
  describe_cluster := fun _ => Except.error "boom"

end EmrClusterInfo

namespace TraceM

theorem bind_def (x : TraceM ε ev α) (f : α → TraceM ε ev β) (tr : List ev) :
    (x >>= f) tr = match x tr with
      | (Except.ok a, tr1) => f a tr1
      | (Except.error e, tr1) => (Except.error e, tr1) := rfl

theorem pure_def (a : α) (tr : List ev) :
    (pure a : TraceM ε ev α) tr = (Except.ok a, tr) := rfl

theorem record_def (e : ev) (tr : List ev) :
    (record e : TraceM ε ev Unit) tr = (Except.ok (), tr ++ [e]) := rfl

theorem stop_def (e : ε) (tr : List ev) :
    (stop e : TraceM ε ev α) tr = (Except.error e, tr) := rfl

end TraceM

namespace EmrCluster

/-- The boolean `any(check_status)` test of the absent path (lines
120-126) agrees with plain membership of the state in the active set. -/
theorem activeCheck_eq (s : ClusterState) :
    (active_states.map (fun state => s == state)).any id = decide (s ∈ active_states) := by
  cases s <;> decide

/-- Claim C1: for every invocation with state=present, the Presence
Reconciler exits immediately after reading the instances parameter,
reporting changed=false with the raw instances values echoed back, and
never performs the existence check, the cluster-finder call, or any
creation call (the event trace of the run is empty). -/
theorem presence_short_circuit (client : Client) (m : EmrParams)
    (h : m.state = EmrState.present) :
    (emrMain client m).run =
      (Except.error (ModStop.exited (ExitPayload.instancesEcho false m.instances)), []) := by
  cases m with
  | mk name instances st w wd wa =>
      cases h
      rfl

/-- Witness for presence_short_circuit at a concrete client and concrete
present-state parameters. -/
theorem presence_short_circuit_witness :
    paramsPresent.state = EmrState.present ∧
    (emrMain sampleClient paramsPresent).run =
      (Except.error (ModStop.exited (ExitPayload.instancesEcho false
        [("ec2_key_name", "mykey")])), []) :=
  ⟨rfl, presence_short_circuit sampleClient paramsPresent rfl⟩

/-- Claim C2: for every paginated listing, the Cluster Finder filters
candidates by testing the name pattern (match-at-start semantics)
against each item's Name; zero matches return the empty listing with no
detail fetch, exactly one match returns that cluster's full detail, and
more than one match raises a warning and returns the detail of the first
match in raw listing order. -/
theorem finder_cases (client : Client) (m : EmrParams) (filters : EmrFilters)
    (L : List ClusterSummary) (hL : client.list_clusters filters = Except.ok L) :
    (nameMatches m L = [] →
      (gather_cluster_info client m filters).run =
        (Except.ok (GatherResult.list []), [Event.listClusters filters])) ∧
    (∀ s d, nameMatches m L = [s] →
      client.describe_cluster s.Id = Except.ok d →
      (gather_cluster_info client m filters).run =
        (Except.ok (GatherResult.detail d),
         [Event.listClusters filters, Event.describeCluster s.Id])) ∧
    (∀ s rest d, nameMatches m L = s :: rest → rest ≠ [] →
      client.describe_cluster s.Id = Except.ok d →
      (gather_cluster_info client m filters).run =
        (Except.ok (GatherResult.detail d),
         [Event.listClusters filters, Event.warn tooManyMatchesWarning,
          Event.describeCluster s.Id])) := by
  refine ⟨?_, ?_, ?_⟩
  · intro h
    simp [gather_cluster_info, TraceM.run, TraceM.bind_def, TraceM.record_def,
      TraceM.pure_def, TraceM.stop_def, orFail, hL, h, pure, TraceM.pureM,
      module_warn, fail_json_aws]
  · intro s d hm hd
    simp [gather_cluster_info, TraceM.run, TraceM.bind_def, TraceM.record_def,
      TraceM.pure_def, TraceM.stop_def, orFail, hL, hm, hd, pure, TraceM.pureM,
      module_warn, fail_json_aws]
  · intro s rest d hm hrest hd
    simp [gather_cluster_info, TraceM.run, TraceM.bind_def, TraceM.record_def,
      TraceM.pure_def, TraceM.stop_def, orFail, hL, hm, hd, pure, TraceM.pureM,
      module_warn, fail_json_aws, hrest, List.length_pos]

/-- Witness for finder_cases: a two-element listing with exactly one
name matching the literal pattern "My". -/
theorem finder_cases_witness :
    nameMatches paramsAbsent [⟨"j-2", "Other"⟩, ⟨"j-1", "My Cluster A"⟩]
        = [⟨"j-1", "My Cluster A"⟩] ∧
    (gather_cluster_info sampleClient paramsAbsent gatherDefaultFilters).run =
      (Except.ok (GatherResult.detail ⟨"j-1", "My Cluster A", some ⟨ClusterState.RUNNING⟩⟩),
       [Event.listClusters gatherDefaultFilters, Event.describeCluster "j-1"]) :=
  ⟨by decide,
   (finder_cases sampleClient paramsAbsent gatherDefaultFilters
      [⟨"j-2", "Other"⟩, ⟨"j-1", "My Cluster A"⟩] rfl).2.1
     ⟨"j-1", "My Cluster A"⟩ ⟨"j-1", "My Cluster A", some ⟨ClusterState.RUNNING⟩⟩
     (by decide) rfl⟩

end EmrCluster

namespace EmrCluster

/-- Claim C4: for every state=absent invocation where the Cluster Finder
returns a cluster whose Status.State is active (here an arbitrary member
of STARTING/BOOTSTRAPPING/RUNNING/WAITING) and the wait flag is false,
exactly one termination request is issued for that cluster's identifier
and the result is changed=true with the detail returned by one immediate
re-fetch (the re-fetched detail is unconstrained — it need not show a
terminal state). -/
theorem absent_active_terminates (client : Client) (m : EmrParams)
    (L : List ClusterSummary) (s : ClusterSummary) (d d2 : ClusterDetail) (st : ClusterStatus)
    (hstate : m.state = EmrState.absent)
    (hwait : m.wait = false)
    (hL : client.list_clusters gatherDefaultFilters = Except.ok L)
    (hm : nameMatches m L = [s])
    (hd : client.describe_cluster s.Id = Except.ok d)
    (hst : d.Status = some st)
    (hactive : st.State ∈ active_states)
    (hterm : client.terminate_job_flows [d.Id] = Except.ok ())
    (hd2 : client.describe_cluster d.Id = Except.ok d2) :
    (emrMain client m).run =
      (Except.error (ModStop.exited (ExitPayload.clusterResult true (GatherResult.detail d2))),
       [Event.listClusters gatherDefaultFilters, Event.describeCluster s.Id,
        Event.terminateJobFlows [d.Id], Event.describeCluster d.Id]) ∧
    countTerminations ((emrMain client m).run).2 = 1 := by
  have hrun : (emrMain client m).run =
      (Except.error (ModStop.exited (ExitPayload.clusterResult true (GatherResult.detail d2))),
       [Event.listClusters gatherDefaultFilters, Event.describeCluster s.Id,
        Event.terminateJobFlows [d.Id], Event.describeCluster d.Id]) := by
    simp [emrMain, hstate, ensure_cluster_absent, ensure_cluster_absent_with,
      gather_cluster_info, terminate_cluster, TraceM.run, TraceM.bind_def,
      TraceM.record_def, TraceM.pure_def, TraceM.stop_def, orFail, hL, hm, hd, hst,
      hwait, hterm, hd2, pure, TraceM.pureM, module_warn, fail_json_aws, exit_json,
      activeCheck_eq, hactive]
  exact ⟨hrun, by rw [hrun]; rfl⟩

/-- Witness for absent_active_terminates: a RUNNING match, wait
disabled; the re-fetch still reports RUNNING (not terminal) and it is
what the module returns with changed=true. -/
theorem absent_active_terminates_witness :
    (⟨ClusterState.RUNNING⟩ : ClusterStatus).State ∈ active_states ∧
    (emrMain clientOneRunning paramsAbsent).run =
      (Except.error (ModStop.exited (ExitPayload.clusterResult true
         (GatherResult.detail ⟨"j-1", "My Cluster A", some ⟨ClusterState.RUNNING⟩⟩))),
       [Event.listClusters gatherDefaultFilters, Event.describeCluster "j-1",
        Event.terminateJobFlows ["j-1"], Event.describeCluster "j-1"]) ∧
    countTerminations ((emrMain clientOneRunning paramsAbsent).run).2 = 1 :=
  have t := absent_active_terminates clientOneRunning paramsAbsent
    [⟨"j-1", "My Cluster A"⟩] ⟨"j-1", "My Cluster A"⟩
    ⟨"j-1", "My Cluster A", some ⟨ClusterState.RUNNING⟩⟩
    ⟨"j-1", "My Cluster A", some ⟨ClusterState.RUNNING⟩⟩ ⟨ClusterState.RUNNING⟩
    rfl rfl rfl (by decide) rfl rfl (by decide) rfl rfl
  ⟨by decide, t.1, t.2⟩

/-- Claim C5: for every state=absent invocation where the Cluster Finder
returns a cluster whose Status.State is not an active state, the
reconciler issues no termination call and returns changed=false with the
existing detail unchanged (idempotent no-op; the trace holds only the
read-only listing and detail-fetch calls). -/
theorem absent_inactive_noop (client : Client) (m : EmrParams)
    (L : List ClusterSummary) (s : ClusterSummary) (d : ClusterDetail) (st : ClusterStatus)
    (hstate : m.state = EmrState.absent)
    (hL : client.list_clusters gatherDefaultFilters = Except.ok L)
    (hm : nameMatches m L = [s])
    (hd : client.describe_cluster s.Id = Except.ok d)
    (hst : d.Status = some st)
    (hactive : st.State ∉ active_states) :
    (emrMain client m).run =
      (Except.error (ModStop.exited (ExitPayload.clusterResult false (GatherResult.detail d))),
       [Event.listClusters gatherDefaultFilters, Event.describeCluster s.Id]) ∧
    countTerminations ((emrMain client m).run).2 = 0 := by
  have hrun : (emrMain client m).run =
      (Except.error (ModStop.exited (ExitPayload.clusterResult false (GatherResult.detail d))),
       [Event.listClusters gatherDefaultFilters, Event.describeCluster s.Id]) := by
    simp [emrMain, hstate, ensure_cluster_absent, ensure_cluster_absent_with,
      gather_cluster_info, TraceM.run, TraceM.bind_def, TraceM.record_def,
      TraceM.pure_def, TraceM.stop_def, orFail, hL, hm, hd, hst, pure, TraceM.pureM,
      module_warn, fail_json_aws, exit_json, activeCheck_eq, hactive]
  exact ⟨hrun, by rw [hrun]; rfl⟩

/-- Witness for absent_inactive_noop: a TERMINATED match yields
changed=false, the existing detail, and zero termination requests. -/
theorem absent_inactive_noop_witness :
    (⟨ClusterState.TERMINATED⟩ : ClusterStatus).State ∉ active_states ∧
    (emrMain clientOneTerminated paramsAbsent).run =
      (Except.error (ModStop.exited (ExitPayload.clusterResult false
         (GatherResult.detail ⟨"j-1", "My Cluster A", some ⟨ClusterState.TERMINATED⟩⟩))),
       [Event.listClusters gatherDefaultFilters, Event.describeCluster "j-1"]) ∧
    countTerminations ((emrMain clientOneTerminated paramsAbsent).run).2 = 0 :=
  have t := absent_inactive_noop clientOneTerminated paramsAbsent
    [⟨"j-1", "My Cluster A"⟩] ⟨"j-1", "My Cluster A"⟩
    ⟨"j-1", "My Cluster A", some ⟨ClusterState.TERMINATED⟩⟩ ⟨ClusterState.TERMINATED⟩
    rfl rfl (by decide) rfl rfl (by decide)
  ⟨by decide, t.1, t.2⟩

/-- Claim C3: for every state=absent invocation with wait enabled, a
waiter that does not observe a terminal state within its budget makes
the invocation fail (the wait-timeout error is fatal) and the final
detail re-fetch is not performed — the trace ends at the waiter call;
moreover, in the termination sub-protocol the re-fetch is reached iff
the wait flag is unset or the wait succeeds. -/
theorem absent_wait_timeout_fatal (client : Client) (m : EmrParams) :
    (∀ L s d st e,
      m.state = EmrState.absent →
      m.wait = true →
      client.list_clusters gatherDefaultFilters = Except.ok L →
      nameMatches m L = [s] →
      client.describe_cluster s.Id = Except.ok d →
      d.Status = some st →
      st.State ∈ active_states →
      client.terminate_job_flows [d.Id] = Except.ok () →
      client.wait_cluster_terminated d.Id m.wait_delay m.wait_max_attempts = Except.error e →
      (emrMain client m).run =
        (Except.error (ModStop.failedAws e),
         [Event.listClusters gatherDefaultFilters, Event.describeCluster s.Id,
          Event.terminateJobFlows [d.Id],
          Event.waiterWait d.Id m.wait_delay m.wait_max_attempts])) ∧
    (∀ id, client.terminate_job_flows [id] = Except.ok () →
      (Event.describeCluster id ∈ ((terminate_cluster client m id).run).2 ↔
        (m.wait = false ∨
         client.wait_cluster_terminated id m.wait_delay m.wait_max_attempts = Except.ok ()))) := by
  constructor
  · intro L s d st e hstate hwait hL hm hd hst hactive hterm hwaiter
    simp [emrMain, hstate, ensure_cluster_absent, ensure_cluster_absent_with,
      gather_cluster_info, terminate_cluster, TraceM.run, TraceM.bind_def,
      TraceM.record_def, TraceM.pure_def, TraceM.stop_def, orFail, hL, hm, hd, hst,
      hwait, hterm, hwaiter, pure, TraceM.pureM, module_warn, fail_json_aws, exit_json,
      activeCheck_eq, hactive]
  · intro id hterm
    cases hwait : m.wait with
    | false =>
        simp [terminate_cluster, TraceM.run, TraceM.bind_def, TraceM.record_def,
          TraceM.pure_def, TraceM.stop_def, orFail, hterm, hwait, pure, TraceM.pureM,
          fail_json_aws]
        cases hw : client.describe_cluster id with
        | ok d => simp [hw, TraceM.pureM, TraceM.stop]
        | error e => simp [hw, TraceM.pureM, TraceM.stop]
    | true =>
        cases hw : client.wait_cluster_terminated id m.wait_delay m.wait_max_attempts with
        | ok u =>
            cases u
            simp [terminate_cluster, TraceM.run, TraceM.bind_def, TraceM.record_def,
              TraceM.pure_def, TraceM.stop_def, orFail, hterm, hwait, hw, pure,
              TraceM.pureM, fail_json_aws]
            cases hw2 : client.describe_cluster id with
            | ok d => simp [hw2, TraceM.pureM, TraceM.stop]
            | error e => simp [hw2, TraceM.pureM, TraceM.stop]
        | error e =>
            simp [terminate_cluster, TraceM.run, TraceM.bind_def, TraceM.record_def,
              TraceM.pure_def, TraceM.stop_def, orFail, hterm, hwait, hw, pure,
              TraceM.pureM, fail_json_aws]

/-- Witness for absent_wait_timeout_fatal: a RUNNING match with wait
enabled whose waiter times out; the run fails with the waiter's error,
the trace ends at the waiter call, and the re-fetch is not reached. -/
theorem absent_wait_timeout_fatal_witness :
    clientWaiterTimeout.wait_cluster_terminated "j-1" 30 60 = Except.error "waiter timeout" ∧
    (emrMain clientWaiterTimeout paramsAbsentWait).run =
      (Except.error (ModStop.failedAws "waiter timeout"),
       [Event.listClusters gatherDefaultFilters, Event.describeCluster "j-1",
        Event.terminateJobFlows ["j-1"], Event.waiterWait "j-1" 30 60]) ∧
    Event.describeCluster "j-1" ∉
      ((terminate_cluster clientWaiterTimeout paramsAbsentWait "j-1").run).2 := by
  refine ⟨rfl, ?_, ?_⟩
  · exact (absent_wait_timeout_fatal clientWaiterTimeout paramsAbsentWait).1
      [⟨"j-1", "My Cluster A"⟩] ⟨"j-1", "My Cluster A"⟩
      ⟨"j-1", "My Cluster A", some ⟨ClusterState.RUNNING⟩⟩ ⟨ClusterState.RUNNING⟩
      "waiter timeout" rfl rfl rfl (by decide) rfl rfl (by decide) rfl rfl
  · intro hmem
    rcases ((absent_wait_timeout_fatal clientWaiterTimeout paramsAbsentWait).2
        "j-1" rfl).mp hmem with h | h
    · exact Bool.noConfusion h
    · exact Except.noConfusion h

/-- Claim C10: the Absence Reconciler decides found-ness solely by the
presence of the Status key in the Cluster Finder result; the membership
test is total over both result shapes, and any result lacking Status —
the empty-list no-match result as well as a detail dict without the key —
yields changed=false with that result returned unchanged, no termination
call, and a normally completing run (the no-match path never indexes
into the empty result). -/
theorem absent_status_key_decides (client : Client) (m : EmrParams) :
    (GatherResult.list []).hasStatusKey = false ∧
    (∀ L, client.list_clusters gatherDefaultFilters = Except.ok L →
      nameMatches m L = [] →
      (ensure_cluster_absent client m).run =
        (Except.ok (false, GatherResult.list []),
         [Event.listClusters gatherDefaultFilters]) ∧
      countTerminations ((ensure_cluster_absent client m).run).2 = 0) ∧
    (∀ L s d, client.list_clusters gatherDefaultFilters = Except.ok L →
      nameMatches m L = [s] →
      client.describe_cluster s.Id = Except.ok d →
      (GatherResult.detail d).hasStatusKey = false →
      (ensure_cluster_absent client m).run =
        (Except.ok (false, GatherResult.detail d),
         [Event.listClusters gatherDefaultFilters, Event.describeCluster s.Id]) ∧
      countTerminations ((ensure_cluster_absent client m).run).2 = 0) := by
  refine ⟨rfl, ?_, ?_⟩
  · intro L hL hm
    have hrun : (ensure_cluster_absent client m).run =
        (Except.ok (false, GatherResult.list []),
         [Event.listClusters gatherDefaultFilters]) := by
      simp [ensure_cluster_absent, ensure_cluster_absent_with, gather_cluster_info,
        TraceM.run, TraceM.bind_def, TraceM.record_def, TraceM.pure_def,
        TraceM.stop_def, orFail, hL, hm, pure, TraceM.pureM, module_warn, fail_json_aws]
    exact ⟨hrun, by rw [hrun]; rfl⟩
  · intro L s d hL hm hd hkey
    have hnone : d.Status = none := by
      cases hcase : d.Status with
      | none => rfl
      | some st => rw [GatherResult.hasStatusKey, hcase] at hkey; cases hkey
    have hrun : (ensure_cluster_absent client m).run =
        (Except.ok (false, GatherResult.detail d),
         [Event.listClusters gatherDefaultFilters, Event.describeCluster s.Id]) := by
      simp [ensure_cluster_absent, ensure_cluster_absent_with, gather_cluster_info,
        TraceM.run, TraceM.bind_def, TraceM.record_def, TraceM.pure_def,
        TraceM.stop_def, orFail, hL, hm, hd, hnone, pure, TraceM.pureM, module_warn,
        fail_json_aws]
    exact ⟨hrun, by rw [hrun]; rfl⟩

/-- Witness for absent_status_key_decides: the empty no-match listing
and a detail dict lacking the Status key both complete normally with
changed=false, the result unchanged and no termination call. -/
theorem absent_status_key_decides_witness :
    (ensure_cluster_absent clientNoMatch paramsAbsent).run =
      (Except.ok (false, GatherResult.list []),
       [Event.listClusters gatherDefaultFilters]) ∧
    (ensure_cluster_absent clientNoStatusKey paramsAbsent).run =
      (Except.ok (false, GatherResult.detail ⟨"j-1", "My Cluster A", none⟩),
       [Event.listClusters gatherDefaultFilters, Event.describeCluster "j-1"]) :=
  ⟨((absent_status_key_decides clientNoMatch paramsAbsent).2.1 [] rfl (by decide)).1,
   ((absent_status_key_decides clientNoStatusKey paramsAbsent).2.2
      [⟨"j-1", "My Cluster A"⟩] ⟨"j-1", "My Cluster A"⟩ ⟨"j-1", "My Cluster A", none⟩
      rfl (by decide) rfl rfl).1⟩

/-- Claim C9: no call to the Cluster Finder mutates its filters
argument, so the module-level shared default filters mapping remains
empty across any sequence of calls, and two invocations with the default
argument against the same provider responses produce identical results
(no cross-invocation state leakage despite the shared mutable default). -/
theorem finder_filters_never_mutated (client : Client) (m : EmrParams) :
    (∀ f, gather_filters_after client m f = f) ∧
    (∀ n, defaultFiltersAfterRuns client m n = gatherDefaultFilters) ∧
    (absentTwiceResults client m).1 = (absentTwiceResults client m).2 := by
  refine ⟨fun f => rfl, ?_, rfl⟩
  intro n
  induction n with
  | zero => rfl
  | succ k ih => simp [defaultFiltersAfterRuns, gather_filters_after, ih]

/-- Witness for finder_filters_never_mutated at a concrete client,
concrete parameters and two iterations. -/
theorem finder_filters_never_mutated_witness :
    defaultFiltersAfterRuns sampleClient paramsAbsent 2 = gatherDefaultFilters ∧
    (absentTwiceResults sampleClient paramsAbsent).1 =
      (absentTwiceResults sampleClient paramsAbsent).2 :=
  ⟨(finder_filters_never_mutated sampleClient paramsAbsent).2.1 2,
   (finder_filters_never_mutated sampleClient paramsAbsent).2.2⟩

end EmrCluster

namespace EmrClusterInfo

/-- Claim C7: every Inventory Reporter invocation whose filter set
contains a CreatedAfter or CreatedBefore entry fails before any remote
call is attempted (empty event trace).  The run aborts with the
AttributeError raised by the `datetime.strtime` lookup at lines 300/304,
which fires for every date string — malformed ones included. -/
theorem info_date_filter_fails_before_calls (client : InfoClient) (p : InfoParams)
    (h : p.filters.CreatedAfter.isSome ∨ p.filters.CreatedBefore.isSome) :
    (infoMain client p).run =
      (Except.error (InfoStop.attributeError strtimeAttributeError), []) := by
  cases hA : p.filters.CreatedAfter with
  | some v =>
      simp [infoMain, TraceM.run, TraceM.bind_def, TraceM.record_def, TraceM.pure_def,
        TraceM.stop_def, hA, pure, TraceM.pureM]
  | none =>
      have hB : p.filters.CreatedBefore.isSome := by
        rcases h with h | h
        · rw [hA] at h; cases h
        · exact h
      cases hBc : p.filters.CreatedBefore with
      | some v =>
          simp [infoMain, TraceM.run, TraceM.bind_def, TraceM.record_def, TraceM.pure_def,
            TraceM.stop_def, hA, hBc, pure, TraceM.pureM]
      | none => rw [hBc] at hB; cases hB

/-- Witness for info_date_filter_fails_before_calls: a malformed date
string in CreatedAfter aborts the run with an empty trace. -/
theorem info_date_filter_fails_before_calls_witness :
    infoParamsBadDate.filters.CreatedAfter = some "2021-02-30x" ∧
    (infoMain infoClientThree infoParamsBadDate).run =
      (Except.error (InfoStop.attributeError strtimeAttributeError), []) :=
  ⟨rfl, info_date_filter_fails_before_calls infoClientThree infoParamsBadDate (Or.inl rfl)⟩

/-- A detail-fetch failure for any member of the list makes the whole
comprehension of lines 320-324 abort with `fail_json_aws`. -/
theorem describeAll_mem_fail (client : InfoClient) :
    ∀ (l : List InfoSummary) (emr : InfoSummary), emr ∈ l →
    ∀ (e : String), client.describe_cluster emr.Id = Except.error e →
    ∀ (tr : List InfoEvent),
    ∃ e' tr', describeAll client l tr = (Except.error (InfoStop.failedAws e'), tr') := by
  intro l
  induction l with
  | nil => intro emr hmem; cases hmem
  | cons a as ih =>
      intro emr hmem e he tr
      rcases List.mem_cons.mp hmem with heq | hmem'
      · subst heq
        refine ⟨e, tr ++ [InfoEvent.describeCluster emr.Id], ?_⟩
        simp [describeAll, TraceM.bind_def, TraceM.record_def, TraceM.stop_def,
          infoOrFail, he, info_fail_json_aws, pure, TraceM.pureM]
      · cases ha : client.describe_cluster a.Id with
        | error e2 =>
            refine ⟨e2, tr ++ [InfoEvent.describeCluster a.Id], ?_⟩
            simp [describeAll, TraceM.bind_def, TraceM.record_def, TraceM.stop_def,
              infoOrFail, ha, info_fail_json_aws, pure, TraceM.pureM]
        | ok d =>
            obtain ⟨e', tr', hrec⟩ := ih emr hmem' e he (tr ++ [InfoEvent.describeCluster a.Id])
            refine ⟨e', tr', ?_⟩
            simp [describeAll, TraceM.bind_def, TraceM.record_def, TraceM.stop_def,
              infoOrFail, ha, info_fail_json_aws, pure, TraceM.pureM, hrec]

/-- Claim C8: for every Inventory Reporter invocation, if the
per-cluster detail fetch fails for any cluster of the matched listing,
the entire invocation aborts through `fail_json_aws` — the run never
reaches the exit that would report a (partial) sequence of details. -/
theorem info_detail_fetch_failure_aborts (client : InfoClient) (p : InfoParams)
    (L : List InfoSummary) (emr : InfoSummary) (e : String)
    (hA : p.filters.CreatedAfter = none)
    (hB : p.filters.CreatedBefore = none)
    (hL : client.list_clusters p.filters = Except.ok L)
    (hmem : emr ∈ infoNameFilter p L)
    (he : client.describe_cluster emr.Id = Except.error e) :
    ∃ e' tr, (infoMain client p).run = (Except.error (InfoStop.failedAws e'), tr) := by
  obtain ⟨e', tr', hfail⟩ := describeAll_mem_fail client (infoNameFilter p L) emr hmem e he
    [InfoEvent.listClusters p.filters]
  refine ⟨e', tr', ?_⟩
  simp [infoMain, TraceM.run, TraceM.bind_def, TraceM.record_def, TraceM.pure_def,
    TraceM.stop_def, hA, hB, hL, infoOrFail, pure, TraceM.pureM, hfail]

/-- Witness for info_detail_fetch_failure_aborts: one listed cluster
whose detail fetch fails; the invocation stops with `fail_json_aws`. -/
theorem info_detail_fetch_failure_aborts_witness :
    infoClientFailDetail.describe_cluster "i-1" = Except.error "boom" ∧
    ∃ e tr, (infoMain infoClientFailDetail infoParamsDesc).run =
      (Except.error (InfoStop.failedAws e), tr) :=
  ⟨rfl, info_detail_fetch_failure_aborts infoClientFailDetail infoParamsDesc
    [⟨"i-1", "a"⟩] ⟨"i-1", "a"⟩ "boom" rfl rfl rfl (by decide) rfl⟩

/-- Claim C6: the Inventory Reporter orders the output by each cluster's
creation timestamp — for details with timestamps T1 < T2 < T3,
sortOrder=ascending reports [T1, T2, T3], sortOrder=descending (the
default) reports [T3, T2, T1], and an empty input listing yields an
empty output sequence without error. -/
theorem info_sort_by_creation_time (client : InfoClient) (p : InfoParams)
    (s1 s2 s3 : InfoSummary) (d1 d2 d3 : InfoDetail)
    (hA : p.filters.CreatedAfter = none)
    (hB : p.filters.CreatedBefore = none)
    (hname : p.name = none)
    (hL : client.list_clusters p.filters = Except.ok [s1, s2, s3])
    (hd1 : client.describe_cluster s1.Id = Except.ok d1)
    (hd2 : client.describe_cluster s2.Id = Except.ok d2)
    (hd3 : client.describe_cluster s3.Id = Except.ok d3)
    (h12 : d1.CreationDateTime < d2.CreationDateTime)
    (h23 : d2.CreationDateTime < d3.CreationDateTime) :
    (p.sort_order = SortOrder.ascending →
      (infoMain client p).run =
        (Except.error (InfoStop.exited [d1, d2, d3]),
         [InfoEvent.listClusters p.filters, InfoEvent.describeCluster s1.Id,
          InfoEvent.describeCluster s2.Id, InfoEvent.describeCluster s3.Id])) ∧
    (p.sort_order = SortOrder.descending →
      (infoMain client p).run =
        (Except.error (InfoStop.exited [d3, d2, d1]),
         [InfoEvent.listClusters p.filters, InfoEvent.describeCluster s1.Id,
          InfoEvent.describeCluster s2.Id, InfoEvent.describeCluster s3.Id])) ∧
    (∀ (client2 : InfoClient) (p2 : InfoParams),
      p2.filters.CreatedAfter = none →
      p2.filters.CreatedBefore = none →
      client2.list_clusters p2.filters = Except.ok [] →
      (infoMain client2 p2).run =
        (Except.error (InfoStop.exited []), [InfoEvent.listClusters p2.filters])) := by
  refine ⟨?_, ?_, ?_⟩
  · intro hsort
    simp [infoMain, TraceM.run, TraceM.bind_def, TraceM.record_def, TraceM.pure_def,
      TraceM.stop_def, hA, hB, hL, infoOrFail, pure, TraceM.pureM, infoNameFilter,
      hname, describeAll, hd1, hd2, hd3, hsort, pySortByKey, sortByLe, insertByLe,
      le_of_lt h12, le_of_lt h23]
  · intro hsort
    simp [infoMain, TraceM.run, TraceM.bind_def, TraceM.record_def, TraceM.pure_def,
      TraceM.stop_def, hA, hB, hL, infoOrFail, pure, TraceM.pureM, infoNameFilter,
      hname, describeAll, hd1, hd2, hd3, hsort, pySortByKey, sortByLe, insertByLe,
      not_le.mpr h12, not_le.mpr h23, not_le.mpr (h12.trans h23)]
  · intro client2 p2 hA2 hB2 hL2
    cases hname2 : p2.name with
    | none =>
        simp [infoMain, TraceM.run, TraceM.bind_def, TraceM.record_def, TraceM.pure_def,
          TraceM.stop_def, hA2, hB2, hL2, infoOrFail, pure, TraceM.pureM,
          infoNameFilter, hname2, describeAll, pySortByKey, sortByLe]
    | some re =>
        simp [infoMain, TraceM.run, TraceM.bind_def, TraceM.record_def, TraceM.pure_def,
          TraceM.stop_def, hA2, hB2, hL2, infoOrFail, pure, TraceM.pureM,
          infoNameFilter, hname2, describeAll, pySortByKey, sortByLe]

/-- Witness for info_sort_by_creation_time: three clusters with
timestamps 10 < 20 < 30, reported descending, ascending, and the empty
listing. -/
theorem info_sort_by_creation_time_witness :
    (infoMain infoClientThree infoParamsDesc).run =
      (Except.error (InfoStop.exited
         [⟨"i-3", "c", 30⟩, ⟨"i-2", "b", 20⟩, ⟨"i-1", "a", 10⟩]),
       [InfoEvent.listClusters infoFiltersPlain, InfoEvent.describeCluster "i-1",
        InfoEvent.describeCluster "i-2", InfoEvent.describeCluster "i-3"]) ∧
    (infoMain infoClientThree infoParamsAsc).run =
      (Except.error (InfoStop.exited
         [⟨"i-1", "a", 10⟩, ⟨"i-2", "b", 20⟩, ⟨"i-3", "c", 30⟩]),
       [InfoEvent.listClusters infoFiltersPlain, InfoEvent.describeCluster "i-1",
        InfoEvent.describeCluster "i-2", InfoEvent.describeCluster "i-3"]) ∧
    (infoMain infoClientEmpty infoParamsDesc).run =
      (Except.error (InfoStop.exited []), [InfoEvent.listClusters infoFiltersPlain]) :=
  ⟨(info_sort_by_creation_time infoClientThree infoParamsDesc
      ⟨"i-1", "a"⟩ ⟨"i-2", "b"⟩ ⟨"i-3", "c"⟩
      ⟨"i-1", "a", 10⟩ ⟨"i-2", "b", 20⟩ ⟨"i-3", "c", 30⟩
      rfl rfl rfl rfl rfl rfl rfl
      (by decide) (by decide)).2.1 rfl,
   (info_sort_by_creation_time infoClientThree infoParamsAsc
      ⟨"i-1", "a"⟩ ⟨"i-2", "b"⟩ ⟨"i-3", "c"⟩
      ⟨"i-1", "a", 10⟩ ⟨"i-2", "b", 20⟩ ⟨"i-3", "c", 30⟩
      rfl rfl rfl rfl rfl rfl rfl
      (by decide) (by decide)).1 rfl,
   (info_sort_by_creation_time infoClientThree infoParamsDesc
      ⟨"i-1", "a"⟩ ⟨"i-2", "b"⟩ ⟨"i-3", "c"⟩
      ⟨"i-1", "a", 10⟩ ⟨"i-2", "b", 20⟩ ⟨"i-3", "c", 30⟩
      rfl rfl rfl rfl rfl rfl rfl
      (by decide) (by decide)).2.2 infoClientEmpty infoParamsDesc rfl rfl rfl⟩

end EmrClusterInfo
